import Mathlib

/-!
Verification development for the NakedSun core bootstrap (`nakedsun/core.py`).

The embedding models the startup orchestrator: the identity transition
(`assume_uid`), the plugin loader loop, the SIGHUP signal handler, and the
`main` supervisor sequence.  Python values that can be either an integer or a
string (uid/gid/umask inputs) are modelled by `Val`; observable actions
(log calls, OS calls, imports, the event-loop start, hook execution) are
modelled as an effect trace `List Eff`; process state that the code mutates
(current uid/gid/umask) is `PState`.  `sys.exit(c)` is modelled by an
`Option Nat` exit field: `some c` means the process terminated with status
`c` at that point and nothing later in the function runs.
-/

namespace NakedSun

/-- A Python value that is either an integer or a string (uid/gid/umask
inputs come from the CLI as strings or from the settings store). -/
inductive Val
  | intV (n : Int)
  | strV (s : String)
deriving DecidableEq

/-- The whitespace characters Python `int()` strips from a string. -/
def pyIsSpace (c : Char) : Bool :=
  c = ' ' || c = '\t' || c = '\n' || c = '\r' || c = '\x0b' || c = '\x0c'

/-- Strip leading and trailing whitespace from a character sequence. -/
def pyStrip (cs : List Char) : List Char :=
  ((cs.dropWhile pyIsSpace).reverse.dropWhile pyIsSpace).reverse

/-- Python `s.startswith(pre)`: prefix test on the character sequence. -/
def pyStartsWith (s pre : String) : Bool := pre.data.isPrefixOf s.data

/-- Python `s.endswith(suf)`: suffix test on the character sequence. -/
def pyEndsWith (s suf : String) : Bool := suf.data.isSuffixOf s.data

/-- Python `s[:-n]` for positive `n`: drop the last `n` characters. -/
def pyDropRight (s : String) (n : Nat) : String :=
  String.mk (s.data.take (s.data.length - n))

/-- Python `int(s)` on a string: optional surrounding whitespace, an optional
sign, then at least one decimal digit; anything else raises `ValueError`
(modelled as `none`). -/
def pyIntOfString (s : String) : Option Int :=
  match pyStrip s.data with
  | [] => none
  | c :: cs =>
    let signed : Bool × List Char :=
      if c = '-' then (true, cs)
      else if c = '+' then (false, cs)
      else (false, c :: cs)
    let neg := signed.1
    let ds := signed.2
    if !ds.isEmpty && ds.all Char.isDigit then
      let n : Nat := ds.foldl (fun a d => 10 * a + (d.toNat - 48)) 0
      some (if neg then -(n : Int) else (n : Int))
    else none

/-- The `try: x = int(x) except (TypeError, ValueError): pass` pattern of
`assume_uid`: integers stay, parseable strings become integers, everything
else is left as it was. -/
def tryInt (v : Val) : Val :=
  match v with
  | Val.intV n => Val.intV n
  | Val.strV s =>
    match pyIntOfString s with
    | some n => Val.intV n
    | none => Val.strV s

/-- Python truthiness of a `Val` (used by `if umask:` in the invalid-umask
warning branch). -/
def truthy : Val → Bool
  | Val.intV n => n != 0
  | Val.strV s => s != ""

/-- Observable effects of the core: log calls, OS identity calls, module
loads and injections, signal registration, the event-loop start, hook
execution.  `logShutdown` is the log flush performed before fatal exits. -/
inductive Eff
  | naked (msg : String)
  | info (msg : String)
  | warning (msg : String)
  | error (msg : String)
  | critical (msg : String)
  | debug (msg : String)
  | exception (msg : String)
  | todo (msg : String)
  | line
  | printBlank
  | logShutdown
  | chdir (path : String)
  | networkInit
  | inject (name : String)
  | importMod (name : String)
  | setuid (n : Int)
  | setgid (n : Int)
  | setumask (n : Int)
  | registerSIGHUP
  | engineStart
  | hooksRun (name : String)
deriving DecidableEq

/-- Process-wide OS identity state mutated by `assume_uid`:
`os.getuid()`, `os.getgid()`, and the current umask. -/
structure PState where
  cur_uid : Int
  cur_gid : Int
  cur_umask : Int
deriving DecidableEq

/-- The external collaborators `assume_uid` consults: the settings store
fallbacks, the `pwd`/`grp` databases, and whether the OS permits a given
`setuid`/`setgid` call (`false` models `OSError`). -/
structure Env where
  settings_uid : Option Val
  settings_gid : Option Val
  settings_umask : Option Val
  pwnam : String → Option Int
  pwuid : Int → Option String
  grnam : String → Option Int
  grgid : Int → Option String
  setuid_ok : Int → Bool
  setgid_ok : Int → Bool

/-- Resolution of one identity field: fall back to the settings value when
the argument is `None`, then attempt integer conversion (lines 67-79). -/
def resolveVal (fallback : Option Val) (v : Option Val) : Option Val :=
  match v with
  | none => Option.map tryInt fallback
  | some x => some (tryInt x)

def invalidUmaskMsg (s : String) : String :=
  "Invalid value for umask \x27" ++ s ++ "\x27."

/-- Umask resolution (lines 81-88): fall back to settings, try `int(...)`;
on failure warn only when the original value is truthy and leave the umask
unset. Returns the warning trace and the resolved numeric umask. -/
def resolve_umask (fallback : Option Val) (v : Option Val) : List Eff × Option Int :=
  let um : Option Val := match v with | none => fallback | some x => some x
  match um with
  | none => ([], none)
  | some (Val.intV n) => ([], some n)
  | some (Val.strV s) =>
    match pyIntOfString s with
    | some n => ([], some n)
    | none => (if truthy (Val.strV s) then [Eff.warning (invalidUmaskMsg s)] else [], none)

def noSuchUserMsg (s : String) : String :=
  "No such user \x27" ++ s ++ "\x27."

def assumingUidMsg (env : Env) (n : Int) : String :=
  match env.pwuid n with
  | some name => "Assuming the UID " ++ toString n ++ " (" ++ name ++ ")."
  | none => "Assuming the UID " ++ toString n ++ "."

def unableUidMsg (env : Env) (n : Int) : String :=
  match env.pwuid n with
  | some name => "Unable to assume the UID " ++ toString n ++ " (" ++ name ++ ")."
  | none => "Unable to assume the UID " ++ toString n ++ "."

/-- Result of the uid step of `assume_uid`: trace, state, exit (if any), and
the final value of the `uid` local variable (consulted by the anti-root
guard). -/
structure UidRes where
  trace : List Eff
  st : PState
  exit : Option Nat
  uidVal : Option Val
deriving DecidableEq

/-- Lines 103-120: if the numeric uid differs from the current one, call
`os.setuid` (OSError is fatal: critical log, flush, exit 1) and log an
informational message; otherwise do nothing. -/
def uid_apply (env : Env) (st : PState) (n : Int) : UidRes :=
  if st.cur_uid ≠ n then
    if env.setuid_ok n then
      { trace := [Eff.setuid n, Eff.info (assumingUidMsg env n)]
        st := { st with cur_uid := n }
        exit := none
        uidVal := some (Val.intV n) }
    else
      { trace := [Eff.critical (unableUidMsg env n), Eff.logShutdown]
        st := st
        exit := some 1
        uidVal := some (Val.intV n) }
  else
    { trace := [], st := st, exit := none, uidVal := some (Val.intV n) }

/-- Lines 91-120: the full uid step.  A string uid is resolved through the
`pwd` database (unknown name: critical log, flush, exit 1); then the numeric
uid is applied. `None` means no uid was requested anywhere. -/
def uid_step (env : Env) (st : PState) (v : Option Val) : UidRes :=
  match v with
  | none => { trace := [], st := st, exit := none, uidVal := none }
  | some (Val.strV s) =>
    match env.pwnam s with
    | none =>
      { trace := [Eff.critical (noSuchUserMsg s), Eff.logShutdown]
        st := st
        exit := some 1
        uidVal := some (Val.strV s) }
    | some n => uid_apply env st n
  | some (Val.intV n) => uid_apply env st n

def rootWarnMsg : String :=
  "The server is running as root. This is not recommended."

def rootCritMsg1 : String := "Please do not run the server as root."

def rootCritMsg2 : String :=
  "Set a UID via the --uid command-line argument, or in the MUD configuration file. If the server must run as root, provide a UID of 0."

/-- Python `uid == 0` on the `uid` local at line 124: only an integer value 0
compares equal to 0 (`None == 0` and `"..." == 0` are both false). -/
def pyEqZero : Option Val → Bool
  | some (Val.intV n) => n == 0
  | _ => false

/-- Lines 122-133, the anti-root protection: if the process is (still)
running with uid 0, warn when uid 0 was the explicitly resolved request,
otherwise log two critical messages (the second a remediation hint), flush,
and exit 1. -/
def anti_root (st : PState) (uidVal : Option Val) : List Eff × Option Nat :=
  if st.cur_uid = 0 then
    if pyEqZero uidVal then
      ([Eff.warning rootWarnMsg], none)
    else
      ([Eff.critical rootCritMsg1, Eff.critical rootCritMsg2, Eff.logShutdown], some 1)
  else ([], none)

def noSuchGroupMsg (s : String) : String :=
  "No such group \x27" ++ s ++ "\x27."

def assumingGidMsg (env : Env) (n : Int) : String :=
  match env.grgid n with
  | some name => "Assuming the GID " ++ toString n ++ " (" ++ name ++ ")."
  | none => "Assuming the GID " ++ toString n ++ "."

def unableGidMsg (env : Env) (n : Int) : String :=
  match env.grgid n with
  | some name => "Unable to assume the GID " ++ toString n ++ " (" ++ name ++ ")."
  | none => "Unable to assume the GID " ++ toString n ++ "."

/-- Result of the gid step: trace, state and exit (if any). -/
structure GidRes where
  trace : List Eff
  st : PState
  exit : Option Nat
deriving DecidableEq

/-- Lines 148-165: apply a numeric gid if it differs from the current one. -/
def gid_apply (env : Env) (st : PState) (n : Int) : GidRes :=
  if st.cur_gid ≠ n then
    if env.setgid_ok n then
      { trace := [Eff.setgid n, Eff.info (assumingGidMsg env n)]
        st := { st with cur_gid := n }
        exit := none }
    else
      { trace := [Eff.critical (unableGidMsg env n), Eff.logShutdown]
        st := st
        exit := some 1 }
  else
    { trace := [], st := st, exit := none }

/-- Lines 136-165: the full gid step, mirroring the uid step over `grp`. -/
def gid_step (env : Env) (st : PState) (v : Option Val) : GidRes :=
  match v with
  | none => { trace := [], st := st, exit := none }
  | some (Val.strV s) =>
    match env.grnam s with
    | none =>
      { trace := [Eff.critical (noSuchGroupMsg s), Eff.logShutdown]
        st := st
        exit := some 1 }
    | some n => gid_apply env st n
  | some (Val.intV n) => gid_apply env st n

/-- Render a number the way `"%04o"` does: octal, zero-padded to width 4. -/
def oct4 (n : Int) : String :=
  let s := String.mk (Nat.toDigits 8 n.natAbs)
  let p := if s.length < 4 then String.mk (List.replicate (4 - s.length) '0') ++ s else s
  if n < 0 then "-" ++ p else p

def umaskMsg (n old : Int) : String :=
  "Assuming the umask " ++ oct4 n ++ " (old was " ++ oct4 old ++ ")."

/-- Lines 167-170: apply a resolved umask (`os.umask` returns the previous
mask, which the log line records next to the new one). -/
def umask_step (st : PState) (um : Option Int) : List Eff × PState :=
  match um with
  | none => ([], st)
  | some n =>
    ([Eff.setumask n, Eff.info (umaskMsg n st.cur_umask)], { st with cur_umask := n })

/-- Result of `assume_uid`: full effect trace, final state, exit (if any),
and the final value of the `uid` local. -/
structure AURes where
  trace : List Eff
  st : PState
  exit : Option Nat
  uidVal : Option Val
deriving DecidableEq

/-- Model of `assume_uid(uid, gid, umask)` (lines 61-170): resolve all three fields
(the umask warning, if any, is emitted during resolution), then perform the
uid step, the anti-root guard, the gid step and the umask step in that
order; any fatal branch stops the rest of the function. -/
def assume_uid (env : Env) (st : PState) (uid gid umask : Option Val) : AURes :=
  let uid1 := resolveVal env.settings_uid uid
  let gid1 := resolveVal env.settings_gid gid
  let wum := resolve_umask env.settings_umask umask
  let wtr := wum.1
  let um1 := wum.2
  let u := uid_step env st uid1
  match u.exit with
  | some c => { trace := wtr ++ u.trace, st := u.st, exit := some c, uidVal := u.uidVal }
  | none =>
    let ar := anti_root u.st u.uidVal
    match ar.2 with
    | some c =>
      { trace := wtr ++ u.trace ++ ar.1, st := u.st, exit := some c, uidVal := u.uidVal }
    | none =>
      let g := gid_step env u.st gid1
      match g.exit with
      | some c =>
        { trace := wtr ++ u.trace ++ ar.1 ++ g.trace, st := g.st, exit := some c
          uidVal := u.uidVal }
      | none =>
        let msk := umask_step g.st um1
        { trace := wtr ++ u.trace ++ ar.1 ++ g.trace ++ msk.1, st := msk.2, exit := none
          uidVal := u.uidVal }

/-! ## Signal bridge and event engine -/

/-- The Python exceptions relevant to the run loop: `SystemCopyover` (the
control exception raised by the SIGHUP handler), `SystemExit`, and
`KeyboardInterrupt`. -/
inductive PyExc
  | systemCopyover
  | systemExit
  | keyboardInterrupt
deriving DecidableEq

/-- What a signal handler does when invoked.  `raiseExc` is control flow via
an exception (what the source does); `setFlag` is the single flag/channel
write design. -/
inductive HandlerAct
  | raiseExc (e : PyExc)
  | setFlag
deriving DecidableEq

/-- Lines 51-55: the registered SIGHUP handler raises the `SystemCopyover`
control exception. -/
def signal_HUP : HandlerAct := HandlerAct.raiseExc PyExc.systemCopyover

/-- The four ways `pants.engine.start()` can return control to `main`:
normal return, or by one of the three modelled exceptions escaping it. -/
inductive EngineOutcome
  | completed
  | sysCopyover
  | sysExit
  | keyboardInterrupt
deriving DecidableEq

/-- Effect of one delivery of a registered signal while the engine runs: a
raising handler unwinds `engine.start()` with that exception; a flag-setting
handler would leave the engine to finish with its base outcome. -/
def deliverDuringRun (h : HandlerAct) (base : EngineOutcome) : EngineOutcome :=
  match h with
  | HandlerAct.raiseExc PyExc.systemCopyover => EngineOutcome.sysCopyover
  | HandlerAct.raiseExc PyExc.systemExit => EngineOutcome.sysExit
  | HandlerAct.raiseExc PyExc.keyboardInterrupt => EngineOutcome.keyboardInterrupt
  | HandlerAct.setFlag => base
/-- How `engine.start()` terminates when `pendingHUP` SIGHUP deliveries occur
while it runs with `signal_HUP` installed: any positive number of deliveries
makes the first handler invocation unwind the engine; with none the engine
finishes with its base outcome. -/
def engineStartWith (pendingHUP : Nat) (base : EngineOutcome) : EngineOutcome :=
  if 0 < pendingHUP then deliverDuringRun signal_HUP base else base

/-- The ControlEvent of the spec: the single terminal classification of how the
run loop ended. -/
inductive ControlEvent
  | Normal
  | CopyoverRequested
  | Interrupted
deriving DecidableEq

/-- Lines 366-375 map the engine outcome to a control event: a normal return
and `SystemExit` are a normal stop, `SystemCopyover` requests a copyover,
`KeyboardInterrupt` is a suppressed interruption. -/
def controlEventOf : EngineOutcome → ControlEvent
  | EngineOutcome.completed => ControlEvent.Normal
  | EngineOutcome.sysExit => ControlEvent.Normal
  | EngineOutcome.sysCopyover => ControlEvent.CopyoverRequested
  | EngineOutcome.keyboardInterrupt => ControlEvent.Interrupted

/-- The control events one run of the loop produces (always exactly one). -/
def controlEventsOf (o : EngineOutcome) : List ControlEvent := [controlEventOf o]

/-- Lines 368-375: the `try/except` around `engine.start()`.  Returns the
trace of the handler bodies (`KeyboardInterrupt` prints a blank line) and
the resulting value of the `begin_copyover` flag. -/
def engineCatch : EngineOutcome → List Eff × Bool
  | EngineOutcome.completed => ([], false)
  | EngineOutcome.sysCopyover => ([], true)
  | EngineOutcome.sysExit => ([], false)
  | EngineOutcome.keyboardInterrupt => ([Eff.printBlank], false)

/-! ## Plugin loader -/

/-- One entry of `os.listdir("pymodules")` together with the filesystem
facts the loader tests: `os.path.isfile`, `os.path.isdir`, and whether the
entry contains an `__init__.py` package marker. -/
structure DirEntry where
  name : String
  isFile : Bool
  isDir : Bool
  hasInit : Bool
deriving DecidableEq

/-- Lines 327-330: skip hidden entries, plain files without the `.py`
suffix, and directories without a package marker. -/
def skipEntry (e : DirEntry) : Bool :=
  pyStartsWith e.name "." || (e.isFile && !(pyEndsWith e.name ".py"))
    || (e.isDir && !e.hasInit)

/-- Lines 333-334: `fn = fn[:-3]` when the entry name ends in `.py`. -/
def modName (fn : String) : String :=
  if pyEndsWith fn ".py" then pyDropRight fn 3 else fn

/-- Model of `os.path.join` for the paths the loader builds. -/
def pathJoin (a b : String) : String := a ++ "/" ++ b

def importingMsg (fn : String) : String := "Importing module: " ++ fn

def importErrMsg (fn full : String) : String :=
  "An error occurred when attempting to import Python module: "
    ++ fn ++ " (" ++ full ++ ")"

/-- Python `<` on strings: lexicographic comparison of code points. -/
def charListLt : List Char → List Char → Bool
  | [], [] => false
  | [], _ :: _ => true
  | _ :: _, [] => false
  | a :: as, b :: bs =>
    if a.toNat < b.toNat then true
    else if b.toNat < a.toNat then false
    else charListLt as bs

/-- Insert an entry into a name-sorted list (helper for `pySorted`). -/
def insEntry (x : DirEntry) : List DirEntry → List DirEntry
  | [] => [x]
  | h :: t => if charListLt h.name.data x.name.data then h :: insEntry x t else x :: h :: t

/-- Model of `sorted(os.listdir("pymodules"))` (line 322): the directory entries in
ascending lexical order of their names. -/
def pySorted : List DirEntry → List DirEntry
  | [] => []
  | h :: t => insEntry h (pySorted t)

/-- Result of the loader loop: trace, the module names stored into
`nakedsun.mudsys.pymodules` (in load order), and the exit if an import
failed. -/
structure LoadRes where
  trace : List Eff
  imported : List String
  exit : Option Nat
deriving DecidableEq

/-- Lines 322-345: iterate the (already sorted) listing; skip filtered
entries; for each survivor log a debug line and import it; on the first
failing import log the diagnostic naming the module and its full path,
flush the log, and exit 1 without touching later entries. -/
def loadLoop (ok : String → Bool) (path : String) : List DirEntry → LoadRes
  | [] => { trace := [], imported := [], exit := none }
  | e :: rest =>
    if skipEntry e then loadLoop ok path rest
    else
      let full := pathJoin path e.name
      let fn := modName e.name
      if ok fn then
        let r := loadLoop ok path rest
        { trace := Eff.debug (importingMsg fn) :: Eff.importMod fn :: r.trace
          imported := fn :: r.imported
          exit := r.exit }
      else
        { trace := [Eff.debug (importingMsg fn),
                    Eff.exception (importErrMsg fn full), Eff.logShutdown]
          imported := []
          exit := some 1 }

/-- Load status of a manifest entry. -/
inductive MStatus
  | pending
  | loaded
  | failed
deriving DecidableEq

/-- The module names the loader will attempt, in order: the sorted listing
with the skip rules applied and the `.py` suffix stripped. -/
def survivors (es : List DirEntry) : List String :=
  (es.filter (fun e => !skipEntry e)).map (fun e => modName e.name)

/-- Modelled from the spec: the ModuleManifest — the ordered discovered
module names each tagged `loaded`, `failed`, or `pending` (the code itself
keeps no status record; this is the abstraction the spec makes of a load run over
the surviving names). -/
def manifestOf (ok : String → Bool) : List String → List (String × MStatus)
  | [] => []
  | n :: rest =>
    if ok n then (n, MStatus.loaded) :: manifestOf ok rest
    else (n, MStatus.failed) :: rest.map (fun x => (x, MStatus.pending))

/-! ## The main supervisor -/

/-- The filesystem facts `main` tests. -/
structure FS where
  libExists : Bool
  hasMuddata : Bool
  hasConfig : Bool
  cwdIsLib : Bool
  libPath : String
  pymodulesExists : Bool
  pymodulesIsPackage : Bool
  pymodulesPath : String
  entries : List DirEntry

/-- Everything external that one run of `main` consumes: platform feature
flags (`do_uid`, `SIGHUP` support), the filesystem, the identity
collaborators, settings, import outcomes, SIGHUP deliveries during the run
loop, and the base outcome of the engine. -/
structure MainEnv where
  do_uid : Bool
  hasSIGHUP : Bool
  nakedmudCompat : Bool
  fs : FS
  idEnv : Env
  st0 : PState
  importOk : String → Bool
  pendingHUP : Nat
  engineBase : EngineOutcome

/-- The parsed command-line arguments relevant to the core. -/
structure Args where
  early : Bool
  uid : Option Val
  gid : Option Val
  umask : Option Val
deriving DecidableEq

/-- Result of the identity phase wrapper at lines 285-286 / 358-359: trace,
state, and exit of `assume_uid` when the phase runs, a no-op otherwise. -/
structure IdRes where
  trace : List Eff
  st : PState
  exit : Option Nat
deriving DecidableEq

/-- Model of `if do_uid and <flag>: assume_uid(args.uid, args.gid, args.umask)`. -/
def identityPhase (env : Env) (st : PState) (a : Args) (run : Bool) : IdRes :=
  if run then
    let r := assume_uid env st a.uid a.gid a.umask
    { trace := r.trace, st := r.st, exit := r.exit }
  else { trace := [], st := st, exit := none }

def bannerMsg : String := "NakedSun v0.1 by Stendec <me@stendec.me>"

def libErrMsg (p : String) : String := "Cannot find the MUD library at: " ++ p

def chdirMsg (p : String) : String := "Changing working directory to: " ++ p

def loadConfigMsg : String := "Loading MUD configuration from file."

def netInitMsg : String := "Initializing the network."

def compatMsg : String := "Loading NakedMud Compatibility Layer."

def injectingMsg : String := "Injecting global modules for NakedMud compatibility."

def loadLibMsg : String := "Loading the MUD library."

def pymodErrMsg : String := "Cannot find pymodules in the MUD library."

def pymodNotPkgMsg : String := "pymodules is not a package. Entering directory."

def copyoverRecMsg : String := "Copyover Recovery."

def copyoverMsg : String := "Copyover."

def enterLoopMsg : String := "Entering the game loop."

def exitNormMsg : String := "Exiting normally."

/-- The twelve module names injected into `sys.modules` (lines 296-299). -/
def injectNames : List String :=
  ["account", "auxiliary", "bitvectors", "char", "event", "hooks",
   "mudsock", "mud", "mudsys", "obj", "room", "storage"]

def injectMsgOf (n : String) : String :=
  "Injecting \x27nakedsun." ++ n ++ "\x27 into sys.modules as \x27" ++ n ++ "\x27."

/-- The trace of the injection loop: each `inject` call logs a debug line
and writes the `sys.modules` entry. -/
def injectEffs : List Eff :=
  injectNames.flatMap (fun n => [Eff.debug (injectMsgOf n), Eff.inject n])

/-- Lines 312-345: either import `pymodules` as a single package, or scan
its sorted listing with the loader loop. -/
def loaderPhase (m : MainEnv) : LoadRes :=
  if m.fs.pymodulesIsPackage then
    { trace := [Eff.debug (importingMsg "pymodules"), Eff.importMod "pymodules"]
      imported := ["pymodules"], exit := none }
  else
    let l := loadLoop m.importOk m.fs.pymodulesPath (pySorted m.fs.entries)
    { trace := Eff.debug pymodNotPkgMsg :: l.trace
      imported := l.imported, exit := l.exit }

/-- Result of one run of `main`: the full effect trace, the exit status, and
whether the early / late identity phase actually called `assume_uid`. -/
structure MainRes where
  trace : List Eff
  exit : Nat
  earlyRan : Bool
  lateRan : Bool
deriving DecidableEq

/-- Model of `main()` (lines 183-388), from after argument parsing onward: banner,
library check (fatal exit 1 on failure), chdir, configuration, network init,
early identity phase, compatibility shim, module injection, plugin loading
(fatal exit 1 on a missing directory or failed import), copyover-recovery
placeholder, SIGHUP registration, late identity phase, the event loop with
its `try/except`, the conditional copyover placeholder, the shutdown hook
run, and the final exit 0. -/
def mainRun (m : MainEnv) (a : Args) : MainRes :=
  let tr0 : List Eff := [Eff.naked bannerMsg]
  if !(m.fs.libExists && (m.fs.hasMuddata || m.fs.hasConfig)) then
    { trace := tr0 ++ [Eff.error (libErrMsg m.fs.libPath), Eff.logShutdown]
      exit := 1, earlyRan := false, lateRan := false }
  else
    let tr1 := tr0
      ++ (if m.fs.cwdIsLib then []
          else [Eff.info (chdirMsg m.fs.libPath), Eff.chdir m.fs.libPath])
      ++ [Eff.info loadConfigMsg, Eff.info netInitMsg, Eff.networkInit]
    let eRun := m.do_uid && a.early
    let e := identityPhase m.idEnv m.st0 a eRun
    match e.exit with
    | some c => { trace := tr1 ++ e.trace, exit := c, earlyRan := eRun, lateRan := false }
    | none =>
      let tr2 := tr1 ++ e.trace
        ++ (if m.nakedmudCompat then [Eff.info compatMsg] else [])
        ++ [Eff.info injectingMsg] ++ injectEffs ++ [Eff.info loadLibMsg]
      if !m.fs.pymodulesExists then
        { trace := tr2 ++ [Eff.error pymodErrMsg, Eff.logShutdown]
          exit := 1, earlyRan := eRun, lateRan := false }
      else
        let lr := loaderPhase m
        match lr.exit with
        | some c => { trace := tr2 ++ lr.trace, exit := c, earlyRan := eRun, lateRan := false }
        | none =>
          let tr3 := tr2 ++ lr.trace ++ [Eff.todo copyoverRecMsg]
            ++ (if m.hasSIGHUP then [Eff.registerSIGHUP] else [])
          let lRun := m.do_uid && !a.early
          let l2 := identityPhase m.idEnv e.st a lRun
          match l2.exit with
          | some c => { trace := tr3 ++ l2.trace, exit := c, earlyRan := eRun, lateRan := lRun }
          | none =>
            let outcome :=
              if m.hasSIGHUP then engineStartWith m.pendingHUP m.engineBase
              else m.engineBase
            let oc := engineCatch outcome
            let tr4 := tr3 ++ l2.trace ++ [Eff.info enterLoopMsg, Eff.line, Eff.engineStart]
            let tr5 := tr4 ++ oc.1 ++ [Eff.line]
              ++ (if oc.2 then [Eff.todo copyoverMsg] else [])
              ++ [Eff.hooksRun "shutdown", Eff.info exitNormMsg, Eff.logShutdown]
            { trace := tr5, exit := 0, earlyRan := eRun, lateRan := lRun }

/-- The numeric uid a resolved `Val` denotes: integers directly, strings
through the `pwd` database (as lines 95-101 do). -/
def lookupUid (env : Env) : Val → Option Int
  | Val.intV n => some n
  | Val.strV s => env.pwnam s

/-- The trace a successful run accumulates before `engine.start()` is
called (everything from the banner up to the blank separator line). -/
def preLoopTrace (m : MainEnv) (a : Args) : List Eff :=
  [Eff.naked bannerMsg]
  ++ (if m.fs.cwdIsLib then []
      else [Eff.info (chdirMsg m.fs.libPath), Eff.chdir m.fs.libPath])
  ++ [Eff.info loadConfigMsg, Eff.info netInitMsg, Eff.networkInit]
  ++ (identityPhase m.idEnv m.st0 a (m.do_uid && a.early)).trace
  ++ (if m.nakedmudCompat then [Eff.info compatMsg] else [])
  ++ [Eff.info injectingMsg] ++ injectEffs ++ [Eff.info loadLibMsg]
  ++ (loaderPhase m).trace ++ [Eff.todo copyoverRecMsg]
  ++ (if m.hasSIGHUP then [Eff.registerSIGHUP] else [])
  ++ (identityPhase m.idEnv
        (identityPhase m.idEnv m.st0 a (m.do_uid && a.early)).st a
        (m.do_uid && !a.early)).trace
  ++ [Eff.info enterLoopMsg, Eff.line]

/-- The trace a successful run accumulates between the engine returning and
the shutdown-hook run. -/
def postLoopTrace (m : MainEnv) : List Eff :=
  (engineCatch (if m.hasSIGHUP then engineStartWith m.pendingHUP m.engineBase
      else m.engineBase)).1
  ++ [Eff.line]
  ++ (if (engineCatch (if m.hasSIGHUP then engineStartWith m.pendingHUP m.engineBase
        else m.engineBase)).2 then [Eff.todo copyoverMsg] else [])

/-! ## Trace predicates -/

/-- Effects belonging to the run-loop/shutdown core: the engine start and a
hook-registry run. -/
def isCoreEff : Eff → Bool
  | Eff.engineStart => true
  | Eff.hooksRun _ => true
  | _ => false

/-- A trace free of engine starts and hook runs. -/
def coreFree (tr : List Eff) : Bool := tr.all (fun e => !isCoreEff e)

def isSetuidEff : Eff → Bool
  | Eff.setuid _ => true
  | _ => false

def isInfoEff : Eff → Bool
  | Eff.info _ => true
  | _ => false

def isWarningEff : Eff → Bool
  | Eff.warning _ => true
  | _ => false

def isHooksRunEff : Eff → Bool
  | Eff.hooksRun _ => true
  | _ => false

def isEngineStartEff : Eff → Bool
  | Eff.engineStart => true
  | _ => false

/-! ## Concrete fixtures -/

/-- A benign identity environment: no settings fallbacks, one known user and
group, all identity changes permitted. -/
def cEnv : Env :=
  { settings_uid := none
    settings_gid := none
    settings_umask := none
    pwnam := fun s => if s = "mud" then some 1000 else none
    pwuid := fun n => if n = 1000 then some "mud" else none
    grnam := fun s => if s = "mud" then some 1000 else none
    grgid := fun n => if n = 1000 then some "mud" else none
    setuid_ok := fun _ => true
    setgid_ok := fun _ => true }

/-- An unprivileged process state. -/
def cSt : PState := { cur_uid := 1000, cur_gid := 1000, cur_umask := 18 }

/-- A root process state. -/
def rootSt : PState := { cur_uid := 0, cur_gid := 0, cur_umask := 18 }

/-- Example plain source file `b.py`. -/
def entB : DirEntry := { name := "b.py", isFile := true, isDir := false, hasInit := false }

/-- Example plain source file `a.py`. -/
def entA : DirEntry := { name := "a.py", isFile := true, isDir := false, hasInit := false }

/-- Example plain source file `c.py`. -/
def entC : DirEntry := { name := "c.py", isFile := true, isDir := false, hasInit := false }

/-- Example hidden file `.hidden.py`. -/
def entHidden : DirEntry :=
  { name := ".hidden.py", isFile := true, isDir := false, hasInit := false }

/-- Example subdirectory without a package marker. -/
def entPkgdir : DirEntry :=
  { name := "pkgdir", isFile := false, isDir := true, hasInit := false }

/-- Example subdirectory with a package marker. -/
def entPkg2 : DirEntry :=
  { name := "pkg2", isFile := false, isDir := true, hasInit := true }

/-- The directory listing of the deterministic-order example: two plain
source files, a hidden file, a directory without a package marker, and a
package directory. -/
def exEntries : List DirEntry := [entB, entA, entHidden, entPkgdir, entPkg2]

/-- A filesystem on which every `main` precondition holds. -/
def cFS : FS :=
  { libExists := true
    hasMuddata := true
    hasConfig := false
    cwdIsLib := true
    libPath := "/mud/lib"
    pymodulesExists := true
    pymodulesIsPackage := false
    pymodulesPath := "/mud/lib/pymodules"
    entries := exEntries }

/-- A baseline environment in which a run of `main` reaches the event loop
and stops normally. -/
def baseEnv : MainEnv :=
  { do_uid := true
    hasSIGHUP := true
    nakedmudCompat := false
    fs := cFS
    idEnv := cEnv
    st0 := cSt
    importOk := fun _ => true
    pendingHUP := 0
    engineBase := EngineOutcome.completed }

/-- Baseline arguments: late identity phase, no identity values supplied. -/
def baseArgs : Args := { early := false, uid := none, gid := none, umask := none }

/-- Variant of `baseEnv` with a different engine outcome. -/
def withEngine (o : EngineOutcome) : MainEnv := { baseEnv with engineBase := o }

/-- Variant of `baseEnv` with the MUD library root missing. -/
def envNoLib : MainEnv := { baseEnv with fs := { cFS with libExists := false } }

/-- Variant of `baseEnv` with the plugin directory missing. -/
def envNoPymod : MainEnv := { baseEnv with fs := { cFS with pymodulesExists := false } }

/-- Variant of `baseEnv` in which importing module `b` raises. -/
def envBadImport : MainEnv := { baseEnv with importOk := fun n => n != "b" }

/-- Variant of `baseEnv` in which the OS denies every identity change. -/
def envDenied : MainEnv :=
  { baseEnv with idEnv := { cEnv with setuid_ok := fun _ => false } }

/-- Arguments naming a user absent from the `pwd` database. -/
def argsBadUser : Args := { baseArgs with uid := some (Val.strV "ghost") }

/-- Arguments requesting a uid change that `envDenied` refuses. -/
def argsOtherUid : Args := { baseArgs with uid := some (Val.intV 42) }

/-- A run already root with no uid requested anywhere (anti-root fatal). -/
def rootEnv : MainEnv := { baseEnv with st0 := rootSt }

/-- Variant of `baseEnv` on a platform without `os.getuid` (`do_uid` is false). -/
def envNoUid : MainEnv := { baseEnv with do_uid := false }

/-! ## Theorems -/

theorem resolveVal_none : resolveVal none none = none := rfl

theorem resolve_umask_none : resolve_umask none none = ([], none) := rfl

/-- Claim C1: after the uid step, with the process effectively root, an
explicitly resolved uid 0 only produces the running-as-root warning and the
transition continues; any other resolved uid value (including none at all)
produces the two critical messages — the second a remediation hint naming
`--uid` — a log flush, and exit status 1. -/
theorem anti_root_guard_correct (env : Env) (st : PState) (uid : Option Val)
    (hg : env.settings_gid = none) (hm : env.settings_umask = none)
    (hu : (uid_step env st (resolveVal env.settings_uid uid)).exit = none)
    (hroot : (uid_step env st (resolveVal env.settings_uid uid)).st.cur_uid = 0) :
    (pyEqZero (uid_step env st (resolveVal env.settings_uid uid)).uidVal = true →
      assume_uid env st uid none none =
        { trace := (uid_step env st (resolveVal env.settings_uid uid)).trace
            ++ [Eff.warning rootWarnMsg]
          st := (uid_step env st (resolveVal env.settings_uid uid)).st
          exit := none
          uidVal := (uid_step env st (resolveVal env.settings_uid uid)).uidVal })
  ∧ (pyEqZero (uid_step env st (resolveVal env.settings_uid uid)).uidVal = false →
      assume_uid env st uid none none =
        { trace := (uid_step env st (resolveVal env.settings_uid uid)).trace
            ++ [Eff.critical rootCritMsg1, Eff.critical rootCritMsg2, Eff.logShutdown]
          st := (uid_step env st (resolveVal env.settings_uid uid)).st
          exit := some 1
          uidVal := (uid_step env st (resolveVal env.settings_uid uid)).uidVal }) := by
  constructor <;> intro hz <;>
    simp [assume_uid, hm, hg, resolve_umask_none, resolveVal_none, hu, anti_root, hroot,
      hz, gid_step, umask_step]

/-- Witness for C1 at a concrete input: a root process with no uid supplied
anywhere logs the two critical messages, flushes, and exits 1. -/
theorem anti_root_guard_witness :
    assume_uid cEnv rootSt none none none =
      { trace := [Eff.critical rootCritMsg1, Eff.critical rootCritMsg2, Eff.logShutdown]
        st := rootSt, exit := some 1, uidVal := none } := by
  have h := (anti_root_guard_correct cEnv rootSt none rfl rfl (by decide) (by decide)).2
    (by decide)
  simpa using h

/-- Claim C7: when the resolved uid (a number directly, or a name resolved
through `pwd`) equals the current uid, `assume_uid` with no gid/umask
request performs no `setuid` call, emits no informational log line at all,
and leaves the process state unchanged (only the anti-root warning can
appear, when the process is root). -/
theorem uid_noop_silent (env : Env) (st : PState) (uid : Option Val) (v : Val)
    (hg : env.settings_gid = none) (hm : env.settings_umask = none)
    (h1 : resolveVal env.settings_uid uid = some v)
    (h2 : lookupUid env v = some st.cur_uid) :
    assume_uid env st uid none none =
      { trace := if st.cur_uid = 0 then [Eff.warning rootWarnMsg] else []
        st := st, exit := none, uidVal := some (Val.intV st.cur_uid) }
    ∧ (assume_uid env st uid none none).trace.countP isSetuidEff = 0
    ∧ (assume_uid env st uid none none).trace.countP isInfoEff = 0 := by
  have hstep : uid_step env st (resolveVal env.settings_uid uid) =
      { trace := [], st := st, exit := none, uidVal := some (Val.intV st.cur_uid) } := by
    rw [h1]
    rcases v with n | s
    · simp only [lookupUid, Option.some.injEq] at h2
      subst h2
      simp [uid_step, uid_apply]
    · simp only [lookupUid] at h2
      simp [uid_step, h2, uid_apply]
  have hmain : assume_uid env st uid none none =
      { trace := if st.cur_uid = 0 then [Eff.warning rootWarnMsg] else []
        st := st, exit := none, uidVal := some (Val.intV st.cur_uid) } := by
    by_cases hz : st.cur_uid = 0 <;>
      simp [assume_uid, hm, hg, resolve_umask_none, resolveVal_none, hstep, anti_root,
        hz, pyEqZero, gid_step, umask_step]
  refine ⟨hmain, ?_, ?_⟩ <;> rw [hmain] <;> by_cases hz : st.cur_uid = 0 <;>
    simp [hz, isSetuidEff, isInfoEff]

/-- Witness for C7: requesting uid 1000 while already uid 1000 is a silent
no-op. -/
theorem uid_noop_silent_witness :
    assume_uid cEnv cSt (some (Val.intV 1000)) none none =
      { trace := if cSt.cur_uid = 0 then [Eff.warning rootWarnMsg] else []
        st := cSt, exit := none, uidVal := some (Val.intV cSt.cur_uid) }
    ∧ (assume_uid cEnv cSt (some (Val.intV 1000)) none none).trace.countP isSetuidEff = 0
    ∧ (assume_uid cEnv cSt (some (Val.intV 1000)) none none).trace.countP isInfoEff = 0 :=
  uid_noop_silent cEnv cSt (some (Val.intV 1000)) (Val.intV 1000) rfl rfl rfl rfl

/-- Counterexample to claim C8 as stated: the empty string cannot be
interpreted as a number, yet the transition logs no warning at all (the
`if umask:` truthiness test is false for `""`); the umask still stays
unchanged and the run continues. -/
theorem invalid_umask_empty_no_warning :
    pyIntOfString "" = none
    ∧ (assume_uid cEnv cSt none none (some (Val.strV ""))).trace.countP isWarningEff = 0
    ∧ (assume_uid cEnv cSt none none (some (Val.strV ""))).st.cur_umask = cSt.cur_umask
    ∧ (assume_uid cEnv cSt none none (some (Val.strV ""))).exit = none := by
  decide

/-- Claim C8 (amended): an invalid umask value produces a non-fatal warning
only when the value is truthy (a non-empty unparseable string); in every
invalid case no umask call is made, the umask retains its prior value, and
the transition continues; a valid value is applied, logging both the new
and the previous mask. -/
theorem umask_handling (env : Env) (st : PState)
    (hu : env.settings_uid = none) (hg : env.settings_gid = none)
    (hroot : ¬ st.cur_uid = 0) :
    (∀ s : String, pyIntOfString s = none → s ≠ "" →
      assume_uid env st none none (some (Val.strV s)) =
        { trace := [Eff.warning (invalidUmaskMsg s)], st := st, exit := none
          uidVal := none })
  ∧ (assume_uid env st none none (some (Val.strV "")) =
        { trace := [], st := st, exit := none, uidVal := none })
  ∧ (∀ n : Int, assume_uid env st none none (some (Val.intV n)) =
        { trace := [Eff.setumask n, Eff.info (umaskMsg n st.cur_umask)]
          st := { st with cur_umask := n }, exit := none, uidVal := none })
  ∧ (∀ s : String, ∀ n : Int, pyIntOfString s = some n →
      assume_uid env st none none (some (Val.strV s)) =
        { trace := [Eff.setumask n, Eff.info (umaskMsg n st.cur_umask)]
          st := { st with cur_umask := n }, exit := none, uidVal := none }) := by
  have h0 : pyIntOfString "" = none := by decide
  refine ⟨?_, ?_, ?_, ?_⟩
  · intro s hs hne
    simp [assume_uid, hu, hg, resolveVal_none, resolve_umask, hs, truthy, hne,
      uid_step, anti_root, hroot, gid_step, umask_step]
  · simp [assume_uid, hu, hg, resolveVal_none, resolve_umask, truthy, h0,
      uid_step, anti_root, hroot, gid_step, umask_step]
  · intro n
    simp [assume_uid, hu, hg, resolveVal_none, resolve_umask,
      uid_step, anti_root, hroot, gid_step, umask_step]
  · intro s n hs
    simp [assume_uid, hu, hg, resolveVal_none, resolve_umask, hs,
      uid_step, anti_root, hroot, gid_step, umask_step]

/-- Witness for C8 (amended) at a concrete input: the unparseable, truthy
value `"oops"` warns and leaves everything unchanged. -/
theorem umask_handling_witness :
    assume_uid cEnv cSt none none (some (Val.strV "oops")) =
      { trace := [Eff.warning (invalidUmaskMsg "oops")], st := cSt, exit := none
        uidVal := none } :=
  (umask_handling cEnv cSt rfl rfl (by decide)).1 "oops" (by decide) (by decide)

/-- Claim C3: on the example listing the load order is exactly
`["a", "b", "pkg2"]` — lexical order with the hidden file, the non-`.py`
handling and the marker-less directory filtered out — and neither
`.hidden.py` nor `pkgdir` is ever attempted. -/
theorem plugin_order_example :
    (pySorted exEntries).map DirEntry.name
      = [".hidden.py", "a.py", "b.py", "pkg2", "pkgdir"]
    ∧ survivors (pySorted exEntries) = ["a", "b", "pkg2"]
    ∧ (loadLoop (fun _ => true) "pymodules" (pySorted exEntries)).imported
      = ["a", "b", "pkg2"]
    ∧ (loadLoop (fun _ => true) "pymodules" (pySorted exEntries)).exit = none
    ∧ (loadLoop (fun _ => true) "pymodules" (pySorted exEntries)).trace.countP
        (fun x => x == Eff.importMod ".hidden") = 0
    ∧ (loadLoop (fun _ => true) "pymodules" (pySorted exEntries)).trace.countP
        (fun x => x == Eff.importMod ".hidden.py") = 0
    ∧ (loadLoop (fun _ => true) "pymodules" (pySorted exEntries)).trace.countP
        (fun x => x == Eff.importMod "pkgdir") = 0 := by
  decide

/-- Claim C10: a subdirectory whose name ends in `.py` and which carries the
package marker survives the filter, and the loader imports it under the
suffix-stripped name, which differs from the on-disk directory name. -/
theorem pydir_suffix_stripped (ok : String → Bool) (path : String) (es : List DirEntry)
    (hok : ok "foo" = true) :
    skipEntry { name := "foo.py", isFile := false, isDir := true, hasInit := true } = false
    ∧ modName "foo.py" = "foo"
    ∧ ("foo" : String) ≠ "foo.py"
    ∧ (∀ name : String, pyStartsWith name "." = false →
        skipEntry { name := name, isFile := false, isDir := true, hasInit := true } = false)
    ∧ loadLoop ok path
        ({ name := "foo.py", isFile := false, isDir := true, hasInit := true } :: es)
      = { trace := Eff.debug (importingMsg "foo") :: Eff.importMod "foo"
            :: (loadLoop ok path es).trace
          imported := "foo" :: (loadLoop ok path es).imported
          exit := (loadLoop ok path es).exit } := by
  have hs : skipEntry { name := "foo.py", isFile := false, isDir := true, hasInit := true }
      = false := by decide
  have hm : modName "foo.py" = "foo" := by decide
  refine ⟨hs, hm, by decide, ?_, ?_⟩
  · intro name h
    simp [skipEntry, h]
  · simp [loadLoop, hs, hm, hok]

/-- Witness for C10: with every import succeeding, the loader on
`[foo.py/]` alone imports exactly `foo`. -/
theorem pydir_suffix_stripped_witness :
    loadLoop (fun _ => true) "pymodules"
        [{ name := "foo.py", isFile := false, isDir := true, hasInit := true }]
      = { trace := [Eff.debug (importingMsg "foo"), Eff.importMod "foo"]
          imported := ["foo"], exit := none } := by
  have h := (pydir_suffix_stripped (fun _ => true) "pymodules" [] rfl).2.2.2.2
  simpa [loadLoop] using h

theorem survivors_nil : survivors [] = [] := rfl

theorem survivors_cons_skip (e : DirEntry) (es : List DirEntry)
    (h : skipEntry e = true) : survivors (e :: es) = survivors es := by
  simp [survivors, h]

theorem survivors_cons_keep (e : DirEntry) (es : List DirEntry)
    (h : skipEntry e = false) : survivors (e :: es) = modName e.name :: survivors es := by
  simp [survivors, h]

/-- Claim C2: decompose the sorted listing around the first surviving entry
whose import fails (`es1` holds only entries that are skipped or import
fine).  The loader exits 1; exactly the earlier survivors were imported;
the trace ends with the diagnostic naming the failing module and its full
path followed by the log flush; and the manifest of the spec marks the earlier
survivors `loaded`, the failing module `failed`, and the rest `pending`. -/
theorem loader_fail_fast (ok : String → Bool) (path : String)
    (es1 es2 : List DirEntry) (e : DirEntry)
    (h1 : ∀ x ∈ es1, skipEntry x = false → ok (modName x.name) = true)
    (h2 : skipEntry e = false)
    (h3 : ok (modName e.name) = false) :
    (loadLoop ok path (es1 ++ e :: es2)).exit = some 1
    ∧ (loadLoop ok path (es1 ++ e :: es2)).imported = survivors es1
    ∧ (∃ t, (loadLoop ok path (es1 ++ e :: es2)).trace =
        t ++ [Eff.debug (importingMsg (modName e.name)),
              Eff.exception (importErrMsg (modName e.name) (pathJoin path e.name)),
              Eff.logShutdown])
    ∧ manifestOf ok (survivors (es1 ++ e :: es2)) =
        (survivors es1).map (fun n => (n, MStatus.loaded))
        ++ (modName e.name, MStatus.failed)
        :: (survivors es2).map (fun n => (n, MStatus.pending)) := by
  induction es1 with
  | nil =>
    refine ⟨?_, ?_, ⟨[], ?_⟩, ?_⟩
    · simp [loadLoop, h2, h3]
    · simp [loadLoop, h2, h3, survivors_nil]
    · simp [loadLoop, h2, h3]
    · rw [List.nil_append, survivors_cons_keep e es2 h2]
      simp [manifestOf, h3, survivors_nil]
  | cons x xs ih =>
    have h1x := fun hsk => h1 x (List.mem_cons_self x xs) hsk
    have h1' : ∀ y ∈ xs, skipEntry y = false → ok (modName y.name) = true :=
      fun y hy => h1 y (List.mem_cons_of_mem x hy)
    obtain ⟨ihe, ihi, ⟨t0, iht⟩, ihm⟩ := ih h1'
    by_cases hsk : skipEntry x = true
    · refine ⟨?_, ?_, ⟨t0, ?_⟩, ?_⟩
      · simp [loadLoop, hsk, ihe]
      · simp [loadLoop, hsk, ihi, survivors_cons_skip x _ hsk]
      · simp [loadLoop, hsk, iht]
      · rw [List.cons_append, survivors_cons_skip x _ hsk, survivors_cons_skip x xs hsk]
        exact ihm
    · have hskf : skipEntry x = false := by simpa using hsk
      have hokx : ok (modName x.name) = true := h1x hskf
      refine ⟨?_, ?_, ⟨Eff.debug (importingMsg (modName x.name))
          :: Eff.importMod (modName x.name) :: t0, ?_⟩, ?_⟩
      · simp [loadLoop, hskf, hokx, ihe]
      · simp [loadLoop, hskf, hokx, ihi, survivors_cons_keep x _ hskf]
      · simp [loadLoop, hskf, hokx, iht]
      · rw [List.cons_append, survivors_cons_keep x _ hskf]
        simp [manifestOf, hokx, ihm, survivors_cons_keep x _ hskf]

/-- Witness for C2 at the example listing with module `b` failing: the
loader imported only `a`, exited 1, and the manifest reads
`a = loaded, b = failed, pkg2 = pending`. -/
theorem loader_fail_fast_witness :
    (loadLoop (fun n => n != "b") "pymodules"
        ([entHidden, entA] ++ entB :: [entPkg2, entPkgdir])).exit = some 1
    ∧ (loadLoop (fun n => n != "b") "pymodules"
        ([entHidden, entA] ++ entB :: [entPkg2, entPkgdir])).imported
      = survivors [entHidden, entA]
    ∧ (∃ t, (loadLoop (fun n => n != "b") "pymodules"
        ([entHidden, entA] ++ entB :: [entPkg2, entPkgdir])).trace =
        t ++ [Eff.debug (importingMsg (modName entB.name)),
              Eff.exception (importErrMsg (modName entB.name)
                (pathJoin "pymodules" entB.name)),
              Eff.logShutdown])
    ∧ manifestOf (fun n => n != "b")
        (survivors ([entHidden, entA] ++ entB :: [entPkg2, entPkgdir])) =
        (survivors [entHidden, entA]).map (fun n => (n, MStatus.loaded))
        ++ (modName entB.name, MStatus.failed)
        :: (survivors [entPkg2, entPkgdir]).map (fun n => (n, MStatus.pending)) :=
  loader_fail_fast (fun n => n != "b") "pymodules" [entHidden, entA] [entPkg2, entPkgdir]
    entB (by decide) (by decide) (by decide)

theorem coreFree_nil : coreFree [] = true := rfl

theorem coreFree_cons (e : Eff) (tr : List Eff) :
    coreFree (e :: tr) = (!isCoreEff e && coreFree tr) := by
  simp [coreFree]

theorem coreFree_append (x y : List Eff) :
    coreFree (x ++ y) = (coreFree x && coreFree y) := by
  simp [coreFree, List.all_append]

theorem coreFree_ite (c : Prop) [Decidable c] (x y : List Eff) :
    coreFree (if c then x else y) = (if c then coreFree x else coreFree y) := by
  split <;> rfl

theorem resolve_umask_coreFree (f v : Option Val) :
    coreFree (resolve_umask f v).1 = true := by
  rcases v with _ | x
  · rcases f with _ | x
    · rfl
    · rcases x with n | s
      · rfl
      · simp only [resolve_umask]
        rcases h : pyIntOfString s with _ | n
        · show coreFree (if truthy (Val.strV s) = true
              then [Eff.warning (invalidUmaskMsg s)] else [], (none : Option Int)).1 = true
          split <;> rfl
        · rfl
  · rcases x with n | s
    · rfl
    · simp only [resolve_umask]
      rcases h : pyIntOfString s with _ | n
      · show coreFree (if truthy (Val.strV s) = true
            then [Eff.warning (invalidUmaskMsg s)] else [], (none : Option Int)).1 = true
        split <;> rfl
      · rfl

theorem uid_apply_cases (env : Env) (st : PState) (n : Int) :
    coreFree (uid_apply env st n).trace = true
    ∧ ((uid_apply env st n).exit = none ∨ (uid_apply env st n).exit = some 1) := by
  unfold uid_apply
  split
  · split
    · exact ⟨rfl, Or.inl rfl⟩
    · exact ⟨rfl, Or.inr rfl⟩
  · exact ⟨rfl, Or.inl rfl⟩

theorem uid_step_cases (env : Env) (st : PState) (v : Option Val) :
    coreFree (uid_step env st v).trace = true
    ∧ ((uid_step env st v).exit = none ∨ (uid_step env st v).exit = some 1) := by
  rcases v with _ | x
  · exact ⟨rfl, Or.inl rfl⟩
  · rcases x with n | s
    · exact uid_apply_cases env st n
    · simp only [uid_step]
      rcases h : env.pwnam s with _ | n
      · exact ⟨rfl, Or.inr rfl⟩
      · exact uid_apply_cases env st n

theorem anti_root_cases (st : PState) (u : Option Val) :
    coreFree (anti_root st u).1 = true
    ∧ ((anti_root st u).2 = none ∨ (anti_root st u).2 = some 1) := by
  unfold anti_root
  split
  · split
    · exact ⟨rfl, Or.inl rfl⟩
    · exact ⟨rfl, Or.inr rfl⟩
  · exact ⟨rfl, Or.inl rfl⟩

theorem gid_apply_cases (env : Env) (st : PState) (n : Int) :
    coreFree (gid_apply env st n).trace = true
    ∧ ((gid_apply env st n).exit = none ∨ (gid_apply env st n).exit = some 1) := by
  unfold gid_apply
  split
  · split
    · exact ⟨rfl, Or.inl rfl⟩
    · exact ⟨rfl, Or.inr rfl⟩
  · exact ⟨rfl, Or.inl rfl⟩

theorem gid_step_cases (env : Env) (st : PState) (v : Option Val) :
    coreFree (gid_step env st v).trace = true
    ∧ ((gid_step env st v).exit = none ∨ (gid_step env st v).exit = some 1) := by
  rcases v with _ | x
  · exact ⟨rfl, Or.inl rfl⟩
  · rcases x with n | s
    · exact gid_apply_cases env st n
    · simp only [gid_step]
      rcases h : env.grnam s with _ | n
      · exact ⟨rfl, Or.inr rfl⟩
      · exact gid_apply_cases env st n

theorem umask_step_coreFree (st : PState) (um : Option Int) :
    coreFree (umask_step st um).1 = true := by
  rcases um with _ | n <;> rfl

theorem assume_uid_cases (env : Env) (st : PState) (u g um : Option Val) :
    coreFree (assume_uid env st u g um).trace = true
    ∧ ((assume_uid env st u g um).exit = none
        ∨ (assume_uid env st u g um).exit = some 1) := by
  have hw := resolve_umask_coreFree env.settings_umask um
  have hus := uid_step_cases env st (resolveVal env.settings_uid u)
  unfold assume_uid
  rcases hu : (uid_step env st (resolveVal env.settings_uid u)).exit with _ | c
  · have har := anti_root_cases (uid_step env st (resolveVal env.settings_uid u)).st
      (uid_step env st (resolveVal env.settings_uid u)).uidVal
    rcases ha : (anti_root (uid_step env st (resolveVal env.settings_uid u)).st
        (uid_step env st (resolveVal env.settings_uid u)).uidVal).2 with _ | c
    · have hgs := gid_step_cases env (uid_step env st (resolveVal env.settings_uid u)).st
        (resolveVal env.settings_gid g)
      rcases hg : (gid_step env (uid_step env st (resolveVal env.settings_uid u)).st
          (resolveVal env.settings_gid g)).exit with _ | c
      · simp [hu, ha, hg, coreFree_append, hw, hus.1, har.1, hgs.1,
          umask_step_coreFree]
      · rcases hgs.2 with h | h
        · rw [hg] at h; cases h
        · rw [hg] at h
          simp only [Option.some.injEq] at h
          subst h
          simp [hu, ha, hg, coreFree_append, hw, hus.1, har.1, hgs.1]
    · rcases har.2 with h | h
      · rw [ha] at h; cases h
      · rw [ha] at h
        simp only [Option.some.injEq] at h
        subst h
        simp [hu, ha, coreFree_append, hw, hus.1, har.1]
  · rcases hus.2 with h | h
    · rw [hu] at h; cases h
    · rw [hu] at h
      simp only [Option.some.injEq] at h
      subst h
      simp [hu, coreFree_append, hw, hus.1]

theorem identityPhase_cases (env : Env) (st : PState) (a : Args) (b : Bool) :
    coreFree (identityPhase env st a b).trace = true
    ∧ ((identityPhase env st a b).exit = none
        ∨ (identityPhase env st a b).exit = some 1) := by
  unfold identityPhase
  split
  · exact assume_uid_cases env st a.uid a.gid a.umask
  · exact ⟨rfl, Or.inl rfl⟩

theorem loadLoop_cases (ok : String → Bool) (path : String) (es : List DirEntry) :
    coreFree (loadLoop ok path es).trace = true
    ∧ ((loadLoop ok path es).exit = none ∨ (loadLoop ok path es).exit = some 1) := by
  induction es with
  | nil => exact ⟨rfl, Or.inl rfl⟩
  | cons e rest ih =>
    by_cases hsk : skipEntry e = true
    · simpa [loadLoop, hsk] using ih
    · have hskf : skipEntry e = false := by simpa using hsk
      by_cases hok : ok (modName e.name) = true
      · constructor
        · simp [loadLoop, hskf, hok, coreFree_cons, isCoreEff, ih.1]
        · simp only [loadLoop, hskf, hok]
          simpa using ih.2
      · have hokf : ok (modName e.name) = false := by simpa using hok
        constructor
        · simp [loadLoop, hskf, hokf, coreFree_cons, coreFree_nil, isCoreEff]
        · simp [loadLoop, hskf, hokf]

theorem loaderPhase_cases (m : MainEnv) :
    coreFree (loaderPhase m).trace = true
    ∧ ((loaderPhase m).exit = none ∨ (loaderPhase m).exit = some 1) := by
  unfold loaderPhase
  split
  · exact ⟨rfl, Or.inl rfl⟩
  · have h := loadLoop_cases m.importOk m.fs.pymodulesPath (pySorted m.fs.entries)
    exact ⟨by simpa [coreFree, isCoreEff] using h.1, h.2⟩

theorem injectEffs_coreFree : coreFree injectEffs = true := by decide

theorem engineCatch_coreFree (o : EngineOutcome) :
    coreFree (engineCatch o).1 = true := by
  cases o <;> rfl

theorem not_mem_engineStart_of_coreFree (tr : List Eff) (h : coreFree tr = true) :
    Eff.engineStart ∉ tr := by
  intro hm
  have := List.all_eq_true.mp h _ hm
  simp [isCoreEff] at this

theorem countP_hooks_zero_of_coreFree (tr : List Eff) (h : coreFree tr = true) :
    tr.countP isHooksRunEff = 0 := by
  rw [List.countP_eq_zero]
  intro x hx
  have := List.all_eq_true.mp h _ hx
  cases x <;> simp_all [isCoreEff, isHooksRunEff]

theorem countP_engine_zero_of_coreFree (tr : List Eff) (h : coreFree tr = true) :
    tr.countP isEngineStartEff = 0 := by
  rw [List.countP_eq_zero]
  intro x hx
  have := List.all_eq_true.mp h _ hx
  cases x <;> simp_all [isCoreEff, isEngineStartEff]

/-- On a run in which every precondition holds, `main` reaches the event
loop: its trace is the pre-loop trace, the engine start, the post-loop
trace, and the shutdown tail; it exits 0; and each identity phase ran
exactly when `do_uid` and the early/late switch selected it. -/
theorem mainRun_success_eq (m : MainEnv) (a : Args)
    (h1 : (m.fs.libExists && (m.fs.hasMuddata || m.fs.hasConfig)) = true)
    (h2 : (identityPhase m.idEnv m.st0 a (m.do_uid && a.early)).exit = none)
    (h3 : m.fs.pymodulesExists = true)
    (h4 : (loaderPhase m).exit = none)
    (h5 : (identityPhase m.idEnv
        (identityPhase m.idEnv m.st0 a (m.do_uid && a.early)).st a
        (m.do_uid && !a.early)).exit = none) :
    mainRun m a =
      { trace := preLoopTrace m a ++ Eff.engineStart :: postLoopTrace m
          ++ [Eff.hooksRun "shutdown", Eff.info exitNormMsg, Eff.logShutdown]
        exit := 0
        earlyRan := m.do_uid && a.early
        lateRan := m.do_uid && !a.early } := by
  simp [mainRun, h1, h2, h3, h4, h5, preLoopTrace, postLoopTrace, List.append_assoc]

/-- Case analysis of one whole run of `main`: either the run reaches the
event loop — trace decomposes around `engineStart` with the shutdown-hook
tail, exit status 0, and the identity-phase flags determined by
`do_uid`/`early` — or some earlier phase failed: the trace contains neither
an engine start nor a hook run, and the exit status is 1. -/
theorem mainRun_cases (m : MainEnv) (a : Args) :
    (∃ t1 t2, (mainRun m a).trace =
        t1 ++ Eff.engineStart :: t2
          ++ [Eff.hooksRun "shutdown", Eff.info exitNormMsg, Eff.logShutdown]
      ∧ coreFree t1 = true ∧ coreFree t2 = true
      ∧ (mainRun m a).exit = 0
      ∧ (mainRun m a).earlyRan = (m.do_uid && a.early)
      ∧ (mainRun m a).lateRan = (m.do_uid && !a.early))
  ∨ (coreFree (mainRun m a).trace = true ∧ (mainRun m a).exit = 1) := by
  have hid1 := identityPhase_cases m.idEnv m.st0 a (m.do_uid && a.early)
  have hid2 := identityPhase_cases m.idEnv
    (identityPhase m.idEnv m.st0 a (m.do_uid && a.early)).st a (m.do_uid && !a.early)
  have hld := loaderPhase_cases m
  by_cases h1 : (m.fs.libExists && (m.fs.hasMuddata || m.fs.hasConfig)) = true
  · rcases hid1.2 with h2 | h2
    · by_cases h3 : m.fs.pymodulesExists = true
      · rcases hld.2 with h4 | h4
        · rcases hid2.2 with h5 | h5
          · left
            rw [mainRun_success_eq m a h1 h2 h3 h4 h5]
            refine ⟨preLoopTrace m a, postLoopTrace m, rfl, ?_, ?_, rfl, rfl, rfl⟩
            · simp [preLoopTrace, coreFree_append, coreFree_ite, coreFree_cons,
                coreFree_nil, isCoreEff, hid1.1, hid2.1, hld.1, injectEffs_coreFree]
            · simp [postLoopTrace, coreFree_append, coreFree_ite, coreFree_cons,
                coreFree_nil, isCoreEff, engineCatch_coreFree]
          · right
            constructor
            · simp [mainRun, h1, h2, h3, h4, h5, coreFree_append, coreFree_ite,
                coreFree_cons, coreFree_nil, isCoreEff, hid1.1, hid2.1, hld.1,
                injectEffs_coreFree]
            · simp [mainRun, h1, h2, h3, h4, h5]
        · right
          constructor
          · simp [mainRun, h1, h2, h3, h4, coreFree_append, coreFree_ite,
              coreFree_cons, coreFree_nil, isCoreEff, hid1.1, hld.1,
              injectEffs_coreFree]
          · simp [mainRun, h1, h2, h3, h4]
      · have h3f : m.fs.pymodulesExists = false := by simpa using h3
        right
        constructor
        · simp [mainRun, h1, h2, h3f, coreFree_append, coreFree_ite, coreFree_cons,
            coreFree_nil, isCoreEff, hid1.1, injectEffs_coreFree]
        · simp [mainRun, h1, h2, h3f]
    · right
      constructor
      · simp [mainRun, h1, h2, coreFree_append, coreFree_ite, coreFree_cons,
          coreFree_nil, isCoreEff, hid1.1]
      · simp [mainRun, h1, h2]
  · have h1f : (m.fs.libExists && (m.fs.hasMuddata || m.fs.hasConfig)) = false := by
      simpa using h1
    right
    constructor
    · simp [mainRun, h1f, coreFree_append, coreFree_cons, coreFree_nil, isCoreEff]
    · simp [mainRun, h1f]

/-- Claim C5: whenever a run reaches the event loop, the trace splits around
the (single) engine start; no hook run occurs before it, exactly one hook
run occurs after it, and the whole run contains exactly one hook run. -/
theorem shutdown_hooks_once_after_loop (m : MainEnv) (a : Args)
    (h : Eff.engineStart ∈ (mainRun m a).trace) :
    ∃ t1 t2, (mainRun m a).trace = t1 ++ Eff.engineStart :: t2
      ∧ t1.countP isHooksRunEff = 0
      ∧ t1.countP isEngineStartEff = 0
      ∧ t2.countP isEngineStartEff = 0
      ∧ t2.countP isHooksRunEff = 1
      ∧ (mainRun m a).trace.countP isHooksRunEff = 1 := by
  rcases mainRun_cases m a with ⟨t1, t2, htr, hc1, hc2, _, _, _⟩ | ⟨hc, _⟩
  · refine ⟨t1, t2 ++ [Eff.hooksRun "shutdown", Eff.info exitNormMsg, Eff.logShutdown],
      ?_, countP_hooks_zero_of_coreFree t1 hc1, countP_engine_zero_of_coreFree t1 hc1,
      ?_, ?_, ?_⟩
    · rw [htr]
      simp [List.cons_append, List.append_assoc]
    · rw [List.countP_append, countP_engine_zero_of_coreFree t2 hc2]
      rfl
    · rw [List.countP_append, countP_hooks_zero_of_coreFree t2 hc2]
      rfl
    · rw [htr]
      simp [List.countP_append, List.countP_cons, countP_hooks_zero_of_coreFree t1 hc1,
        countP_hooks_zero_of_coreFree t2 hc2, isHooksRunEff]
  · exact absurd h (not_mem_engineStart_of_coreFree _ hc)

/-- Witness for C5: the baseline run reaches the loop and runs the shutdown
hooks exactly once, after the engine start. -/
theorem shutdown_hooks_once_after_loop_witness :
    ∃ t1 t2, (mainRun baseEnv baseArgs).trace = t1 ++ Eff.engineStart :: t2
      ∧ t1.countP isHooksRunEff = 0
      ∧ t1.countP isEngineStartEff = 0
      ∧ t2.countP isEngineStartEff = 0
      ∧ t2.countP isHooksRunEff = 1
      ∧ (mainRun baseEnv baseArgs).trace.countP isHooksRunEff = 1 :=
  shutdown_hooks_once_after_loop baseEnv baseArgs (by decide)

/-- Claim C6: every run either reaches the event loop and exits 0 — for any
engine outcome, including the engine raising its stop request — or fails in
an earlier phase and exits 1; each of the named fatal precondition failures
(missing library root, missing plugin directory, unresolved identity name,
denied identity change, module import failure) exits 1, and all four
engine-outcome paths exit 0. -/
theorem exit_status_policy :
    (∀ (m : MainEnv) (a : Args),
      ((mainRun m a).exit = 0 ∧ Eff.engineStart ∈ (mainRun m a).trace)
      ∨ ((mainRun m a).exit = 1 ∧ Eff.engineStart ∉ (mainRun m a).trace))
    ∧ (mainRun (withEngine EngineOutcome.completed) baseArgs).exit = 0
    ∧ (mainRun (withEngine EngineOutcome.sysCopyover) baseArgs).exit = 0
    ∧ (mainRun (withEngine EngineOutcome.sysExit) baseArgs).exit = 0
    ∧ (mainRun (withEngine EngineOutcome.keyboardInterrupt) baseArgs).exit = 0
    ∧ (mainRun envNoLib baseArgs).exit = 1
    ∧ (mainRun envNoPymod baseArgs).exit = 1
    ∧ (mainRun baseEnv argsBadUser).exit = 1
    ∧ (mainRun envDenied argsOtherUid).exit = 1
    ∧ (mainRun envBadImport baseArgs).exit = 1 := by
  refine ⟨?_, by decide, by decide, by decide, by decide, by decide, by decide,
    by decide, by decide, by decide⟩
  intro m a
  rcases mainRun_cases m a with ⟨t1, t2, htr, _, _, hexit, _, _⟩ | ⟨hc, hexit⟩
  · left
    refine ⟨hexit, ?_⟩
    rw [htr]
    simp
  · right
    exact ⟨hexit, not_mem_engineStart_of_coreFree _ hc⟩

/-- Counterexample to claim C9 as stated: on a platform without `os.getuid`
(`do_uid` false, lines 45, 285, 358) a run reaches the event loop with
neither the early nor the late phase executing the identity transition, so
it is not the case that exactly one of them always executes. -/
theorem identity_phase_counterexample :
    Eff.engineStart ∈ (mainRun envNoUid baseArgs).trace
    ∧ (mainRun envNoUid baseArgs).earlyRan = false
    ∧ (mainRun envNoUid baseArgs).lateRan = false := by
  decide

/-- Claim C9 (amended): on a platform with uid support, in every run that
reaches the event loop exactly one of the two identity phases executed the
transition — the early one when the switch is set, the late one otherwise —
and the two flags are always opposite. -/
theorem identity_phase_selection (m : MainEnv) (a : Args)
    (hdu : m.do_uid = true)
    (h : Eff.engineStart ∈ (mainRun m a).trace) :
    (mainRun m a).earlyRan = a.early
    ∧ (mainRun m a).lateRan = !a.early
    ∧ (mainRun m a).earlyRan = !(mainRun m a).lateRan := by
  rcases mainRun_cases m a with ⟨t1, t2, htr, _, _, _, he, hl⟩ | ⟨hc, _⟩
  · rw [he, hl, hdu]
    simp
  · exact absurd h (not_mem_engineStart_of_coreFree _ hc)

/-- Witness for C9 (amended): the baseline run selects the late phase. -/
theorem identity_phase_selection_witness :
    (mainRun baseEnv baseArgs).earlyRan = baseArgs.early
    ∧ (mainRun baseEnv baseArgs).lateRan = !baseArgs.early
    ∧ (mainRun baseEnv baseArgs).earlyRan = !(mainRun baseEnv baseArgs).lateRan :=
  identity_phase_selection baseEnv baseArgs rfl (by decide)

/-- Counterexample to claim C4 as stated: the registered SIGHUP handler does
not record the event through a flag/channel write observed later at a safe
point — it raises the `SystemCopyover` control exception, which unwinds the
engine at once (lines 51-55). -/
theorem sighup_handler_not_flag_write : signal_HUP ≠ HandlerAct.setFlag := by
  decide

/-- Claim C4 (amended): the handler performs no business logic other than
raising the `SystemCopyover` control exception; delivering the signal any
positive number of times while the run loop executes makes the engine
terminate with that one exception, producing exactly the single control
event `CopyoverRequested`, and the whole run of `main` is unchanged by
delivering the signal more than once. -/
theorem sighup_single_copyover (m : MainEnv) (a : Args) (k : Nat) (hk : 1 ≤ k) :
    signal_HUP = HandlerAct.raiseExc PyExc.systemCopyover
    ∧ controlEventsOf (engineStartWith k m.engineBase) = [ControlEvent.CopyoverRequested]
    ∧ mainRun { m with pendingHUP := k } a = mainRun { m with pendingHUP := 1 } a := by
  have hk0 : 0 < k := Nat.lt_of_lt_of_le Nat.zero_lt_one hk
  have hks : ∀ b, engineStartWith k b = EngineOutcome.sysCopyover := by
    intro b
    simp [engineStartWith, hk0, deliverDuringRun, signal_HUP]
  refine ⟨rfl, ?_, ?_⟩
  · rw [hks]
    rfl
  · have h2 : ∀ b, engineStartWith k b = engineStartWith 1 b := by
      intro b
      rw [hks]
      rfl
    have h3 : loaderPhase { m with pendingHUP := k } = loaderPhase m := rfl
    have h4 : loaderPhase { m with pendingHUP := 1 } = loaderPhase m := rfl
    simp [mainRun, h2, h3, h4]

/-- Witness for C4 (amended): three rapid deliveries behave exactly like
one. -/
theorem sighup_single_copyover_witness :
    signal_HUP = HandlerAct.raiseExc PyExc.systemCopyover
    ∧ controlEventsOf (engineStartWith 3 baseEnv.engineBase)
      = [ControlEvent.CopyoverRequested]
    ∧ mainRun { baseEnv with pendingHUP := 3 } baseArgs
      = mainRun { baseEnv with pendingHUP := 1 } baseArgs :=
  sighup_single_copyover baseEnv baseArgs 3 (by decide)

end NakedSun
